import Mathlib

/-!
Verification of the notebook reconciliation controller
(`controllers/notebook_controller.go`, `pkg/reconcilehelper/reconcilehelper.go`)
against its natural-language specification.

The Go code is shallowly embedded: Kubernetes objects become Lean structures
holding exactly the fields the controller reads or writes, Go maps become
association lists, Go nil-able pointers that the code compares with `==`/`!=`
become `Option (Ptr _)` values carrying an allocation address, and calls to
the external object store become function parameters returning `Except`.
-/

namespace NotebookCtrl

/-- A Go heap pointer: an allocation address plus the pointed-to value.
Needed only where the source compares pointers themselves (the `*int32`
replica fields); everywhere else the source compares values
(`reflect.DeepEqual`), which dereferences pointers. -/
structure Ptr (α : Type) where
  addr : Nat
  val : α
deriving DecidableEq, Repr, Inhabited

/-- Go equality on nil-able pointers: `nil == nil`, and two non-nil pointers
are equal exactly when they are the same allocation. -/
def ptrEq {α : Type} (p q : Option (Ptr α)) : Bool :=
  match p, q with
  | none, none => true
  | some a, some b => a.addr == b.addr
  | _, _ => false

/-- Go map read `m[k]`: the zero value "" when the key is absent. -/
def mapGet (m : List (String × String)) (k : String) : String :=
  match m.lookup k with
  | some v => v
  | none => ""

/-- Go map write `m[k] = v`: overwrite the existing key or add it. -/
def mapPut (m : List (String × String)) (k v : String) : List (String × String) :=
  if m.any (fun kv => kv.1 == k) then
    m.map (fun kv => if kv.1 == k then (k, v) else kv)
  else
    m ++ [(k, v)]

/-- `metav1.ObjectMeta`: the fields the controller uses. -/
structure ObjectMeta where
  name : String
  nspace : String
  labels : List (String × String)
  annotations : List (String × String)
deriving DecidableEq, Repr, Inhabited

/-- `corev1.ContainerStateWaiting` (reason and message are what the
controller reads). -/
structure ContainerStateWaiting where
  reason : String
  message : String
deriving DecidableEq, Repr, Inhabited

/-- `corev1.ContainerStateTerminated`. -/
structure ContainerStateTerminated where
  exitCode : Int
  reason : String
  message : String
deriving DecidableEq, Repr, Inhabited

/-- `corev1.ContainerStateRunning`. -/
structure ContainerStateRunning where
  startedAt : Nat
deriving DecidableEq, Repr, Inhabited

/-- `corev1.ContainerState`: three nil-able variant pointers. The Go zero
value has all three nil. -/
structure ContainerState where
  running : Option ContainerStateRunning
  waiting : Option ContainerStateWaiting
  terminated : Option ContainerStateTerminated
deriving DecidableEq, Repr, Inhabited

/-- `v1.NotebookCondition`. `lastProbeTime` models `metav1.Time`. -/
structure NotebookCondition where
  type : String
  lastProbeTime : Nat
  reason : String
  message : String
deriving DecidableEq, Repr, Inhabited

/-- `getNextCondition` (controllers/notebook_controller.go). The source is an
if/else-if/else chain; the final else branch dereferences `cs.Terminated`
without a nil check, so the all-nil state is a nil-pointer fault, modelled as
`none`. `now` stands for `metav1.Now()`. Note the source's final branch sets
both `nbreason` and `nbmsg` from `cs.Terminated.Reason`. -/
def getNextCondition (cs : ContainerState) (now : Nat) : Option NotebookCondition :=
  match cs.running, cs.waiting, cs.terminated with
  | some _, _, _ => some { type := "Running", lastProbeTime := now, reason := "", message := "" }
  | none, some w, _ => some { type := "Waiting", lastProbeTime := now, reason := w.reason, message := w.message }
  | none, none, some t => some { type := "Terminated", lastProbeTime := now, reason := t.reason, message := t.reason }
  | none, none, none => none

/-- The condition-history step of `Reconcile`: the freshly computed condition
is prepended (`append([]v1.NotebookCondition{newCondition}, oldConditions...)`)
only when the history is empty or its head differs from the new condition in
type, reason or message. -/
def appendCondition (oldConditions : List NotebookCondition) (newCondition : NotebookCondition) : List NotebookCondition :=
  match oldConditions with
  | [] => [newCondition]
  | h :: t =>
    if h.type != newCondition.type || h.reason != newCondition.reason || h.message != newCondition.message then
      newCondition :: h :: t
    else
      h :: t

/-- `corev1.EnvVar`. -/
structure EnvVar where
  name : String
  value : String
deriving DecidableEq, Repr, Inhabited

/-- `corev1.ContainerPort`. -/
structure ContainerPort where
  containerPort : Int
  name : String
  protocol : String
deriving DecidableEq, Repr, Inhabited

/-- `corev1.VolumeMount`. -/
structure VolumeMount where
  name : String
  mountPath : String
deriving DecidableEq, Repr, Inhabited

/-- `corev1.Container`: the fields `generateStatefulSet` reads or writes.
`ports` and `args` are `Option` because the source tests them against Go
`nil` before defaulting them. -/
structure Container where
  name : String
  image : String
  workingDir : String
  ports : Option (List ContainerPort)
  env : List EnvVar
  volumeMounts : List VolumeMount
  args : Option (List String)
deriving DecidableEq, Repr, Inhabited

/-- `corev1.Volume`, always used here with a Secret volume source:
`SecretVolumeSource{SecretName, DefaultMode}`. -/
structure Volume where
  name : String
  secretName : String
  defaultMode : Option Int
deriving DecidableEq, Repr, Inhabited

/-- `corev1.PodSecurityContext` (only `FSGroup` is set here). -/
structure PodSecurityContext where
  fsGroup : Option Int
deriving DecidableEq, Repr, Inhabited

/-- `corev1.PodSpec`: the fields the controller touches. -/
structure PodSpec where
  containers : List Container
  volumes : List Volume
  securityContext : Option PodSecurityContext
deriving DecidableEq, Repr, Inhabited

/-- The Notebook spec's embedded pod template (`instance.Spec.Template`):
only its `.Spec` is read. -/
structure NotebookTemplate where
  spec : PodSpec
deriving DecidableEq, Repr, Inhabited

/-- A volume-claim request of the Notebook spec (name, size, storage class),
as read by `generatePersistentVolumeClaim`. -/
structure VolumeClaimRequest where
  name : String
  size : String
  storageClass : String
deriving DecidableEq, Repr, Inhabited

/-- `v1.NotebookSpec` as the controller uses it. -/
structure NotebookSpec where
  template : NotebookTemplate
  volumeClaim : List VolumeClaimRequest
deriving DecidableEq, Repr, Inhabited

/-- `v1.NotebookStatus`. -/
structure NotebookStatus where
  readyReplicas : Int
  containerState : ContainerState
  conditions : List NotebookCondition
deriving DecidableEq, Repr, Inhabited

/-- `v1.Notebook`. -/
structure Notebook where
  meta : ObjectMeta
  spec : NotebookSpec
  status : NotebookStatus
deriving DecidableEq, Repr, Inhabited

/-- The environment-derived configuration the synthesizers read
(`os.Getenv` fields default to the empty string; `os.LookupEnv` fields are
`Option`, distinguishing unset from empty). -/
structure Config where
  clientSecret : String
  discoveryUrl : String
  gatekeeperVersion : String
  logLevel : String
  isClosed : String
  registryName : String
  addFsgroup : Option String
  customDomain : String
  clusterDomain : Option String
  istioGateway : String
deriving DecidableEq, Repr, Inhabited

def DefaultContainerPort : Int := 8888

def DefaultServingPort : Int := 80

def HttpsServingPort : Int := 443

def PrefixEnvVar : String := "NB_PREFIX"

def DefaultFSGroup : Int := 100

def AnnotationRewriteURI : String := "notebooks.kubeflow.org/http-rewrite-uri"

def AnnotationHeadersRequestSet : String := "notebooks.kubeflow.org/http-headers-request-set"

/-- Modelled from the spec: `culler.StopAnnotationIsSet` lives in
`pkg/culler`, which is not among the repository files here. Per the spec,
annotations carry "a stop/start marker used by the culling protocol" under a
fixed key, and "Replica count of the workload is 0 exactly when the stop
marker annotation is present": being set means the fixed stop-marker key is
present in the object metadata's annotations. -/
def stopAnnotationKey : String := "kubeflow-resource-stopped"

/-- Modelled from the spec (see `stopAnnotationKey`): whether the stop-marker
annotation is present. -/
def StopAnnotationIsSet (meta : ObjectMeta) : Bool :=
  (meta.annotations.lookup stopAnnotationKey).isSome

/-- `setPrefixEnvVar`. The Go loop `for _, envVar := range container.Env`
iterates by value: the write `envVar.Value = prefix` mutates the loop-local
copy and the function returns at once, so a container that already holds an
`NB_PREFIX` entry is left entirely unchanged; only when no entry with that
name exists is one appended. -/
def setPrefixEnvVar (inst : Notebook) (container : Container) : Container :=
  let pfx := "/notebook/" ++ inst.meta.nspace ++ "/" ++ inst.meta.name
  if container.env.any (fun e => e.name == PrefixEnvVar) then
    container
  else
    { container with env := container.env ++ [{ name := PrefixEnvVar, value := pfx }] }

/-- `corev1.PodTemplateSpec` as built by `generateStatefulSet`
(object metadata annotations and labels, plus the pod spec). -/
structure PodTemplateSpec where
  annotations : List (String × String)
  labels : List (String × String)
  spec : PodSpec
deriving DecidableEq, Repr, Inhabited

/-- `appsv1.StatefulSetSpec`: the fields this controller generates or copies.
`replicas` is `*int32` in Go and the sync predicate compares the pointers
themselves, so it is modelled as an `Option (Ptr Int)`. -/
structure StatefulSetSpecM where
  replicas : Option (Ptr Int)
  selectorMatchLabels : List (String × String)
  template : PodTemplateSpec
deriving DecidableEq, Repr, Inhabited

/-- `appsv1.StatefulSet`: object metadata plus the spec fields used here. -/
structure StatefulSetM where
  name : String
  nspace : String
  labels : List (String × String)
  annotations : List (String × String)
  spec : StatefulSetSpecM
deriving DecidableEq, Repr, Inhabited

/-- The argument list both branches of the gatekeeper sidecar share (the two
branches of `isClosed` in the source differ only in the image). -/
def gatekeeperArgs (cfg : Config) : List String :=
  ["--client-id=notebook-gatekeeper",
   "--client-secret=" ++ cfg.clientSecret,
   "--listen=:3000",
   "--upstream-url=http://127.0.0.1:8888",
   "--discovery-url=" ++ cfg.discoveryUrl,
   "--secure-cookie=false",
   "--upstream-keepalives=false",
   "--skip-openid-provider-tls-verify=true",
   "--skip-upstream-tls-verify=true",
   "--tls-cert=/etc/secrets/tls.crt",
   "--tls-private-key=/etc/secrets/tls.key",
   "--tls-ca-certificate=/etc/secrets/ca.crt",
   "--enable-self-signed-tls=false",
   "--enable-refresh-tokens=true",
   "--enable-default-deny=true",
   "--enable-metrics=true",
   "--encryption-key=AgXa7xRcoClDEU0ZDSH4X0XhL5Qy2Z2j",
   "--resources=uri=/*|roles=notebook-gatekeeper:notebook-gatekeeper-manager",
   "--log-level=" ++ cfg.logLevel]

/-- The gatekeeper sidecar container appended by `generateStatefulSet`:
image `registryName ++ base` when `IS_CLOSED` is "true", the plain base
image otherwise; everything else is identical between the two branches. -/
def gatekeeperContainer (cfg : Config) : Container :=
  { name := "gatekeeper"
    image :=
      if cfg.isClosed == "true" then
        cfg.registryName ++ "docker.io/tmaxcloudck/gatekeeper:" ++ cfg.gatekeeperVersion
      else
        "docker.io/tmaxcloudck/gatekeeper:" ++ cfg.gatekeeperVersion
    workingDir := ""
    ports := some [{ containerPort := 3000, name := "service", protocol := "" }]
    env := []
    volumeMounts := [{ name := "secret", mountPath := "/etc/secrets" }]
    args := some (gatekeeperArgs cfg) }

/-- `generateStatefulSet`. `a` models the address of the function's fresh
`replicas := int32(...)` allocation (`&replicas`), new on every call.

Two Go details are load-bearing and re-traced here from the source:
the pod template spec is a `DeepCopy` of the Notebook's template spec, so
its slices are allocated at full capacity, and `container :=
&podSpec.Containers[0]` is taken before `podSpec.Containers = append(...)`
adds the gatekeeper sidecar; that append therefore reallocates the backing
array, the `container` pointer goes stale, and the `setPrefixEnvVar(instance,
container)` call made after the append writes (or rather, per
`setPrefixEnvVar`, at most appends) into the discarded old array. The
returned object's containers are hence the defaulted primary container
without any NB_PREFIX change, the remaining template containers, and the
gatekeeper. All mutations made through `container` before the append
(working dir, ports, volume mount, args) do land in the returned object.
A template with no containers makes Go panic on `Containers[0]`: that case
is `none`. -/
def generateStatefulSet (cfg : Config) (inst : Notebook) (a : Nat) : Option StatefulSetM :=
  let replicas : Int := if StopAnnotationIsSet inst.meta then 0 else 1
  match inst.spec.template.spec.containers with
  | [] => none
  | c0 :: crest =>
    -- all Notebook labels are copied into the template labels over the base map
    let tmplLabels :=
      inst.meta.labels.foldl (fun m kv => mapPut m kv.1 kv.2)
        [("statefulset", inst.meta.name), ("notebook-name", inst.meta.name)]
    let c1 := { c0 with workingDir := if c0.workingDir == "" then "/home/jovyan" else c0.workingDir }
    let defaultPorts : List ContainerPort :=
      [{ containerPort := DefaultContainerPort, name := "notebook-port", protocol := "TCP" }]
    let c2 := { c1 with
      ports :=
        match c1.ports with
        | none => some defaultPorts
        | some ps => some ps }
    let c3 := { c2 with
      volumeMounts := c2.volumeMounts ++ [({ name := "secret", mountPath := "/usr/local/share/ca-certificates" } : VolumeMount)] }
    let c4 := { c3 with
      args :=
        match c3.args with
        | none => some ["sh", "-c", "update-ca-certificates && jupyter lab --notebook-dir=/home/${NB_USER} --ip=0.0.0.0 --no-browser --allow-root --port=8888 --NotebookApp.token='' --NotebookApp.password='' --NotebookApp.allow_origin='*' --NotebookApp.base_url=${NB_PREFIX}"]
        | some xs => some xs }
    let containers := c4 :: crest ++ [gatekeeperContainer cfg]
    let volumes :=
      inst.spec.template.spec.volumes
        ++ [({ name := "secret", secretName := inst.meta.name ++ "-secret", defaultMode := some 511 } : Volume)]
    let addFs :=
      match cfg.addFsgroup with
      | none => true
      | some v => v == "true"
    let securityContext :=
      if addFs then
        match inst.spec.template.spec.securityContext with
        | none => some { fsGroup := some DefaultFSGroup }
        | some sc => some sc
      else
        inst.spec.template.spec.securityContext
    some
      { name := inst.meta.name
        nspace := inst.meta.nspace
        labels := []
        annotations := []
        spec :=
          { replicas := some { addr := a, val := replicas }
            selectorMatchLabels := [("statefulset", inst.meta.name)]
            template :=
              { annotations := [("sidecar.istio.io/inject", "false")]
                labels := tmplLabels
                spec := { containers := containers, volumes := volumes, securityContext := securityContext } } } }

/-- `reconcilehelper.CopyStatefulSetFields`: copies the owned fields from the
desired object into the fetched one and reports whether a copied value
differed. Its doc comment reads "Returns true if the fields copied from
don't match to". The label and annotation loops range over the FETCHED
object's entries, comparing against the desired map's value (Go's zero ""
for an absent key); the replica comparison `from.Spec.Replicas !=
to.Spec.Replicas` compares the two `*int32` pointers themselves, i.e.
allocation addresses; the template spec comparison is `reflect.DeepEqual`,
i.e. by value. Returns the flag and the mutated fetched object. -/
def CopyStatefulSetFields (fromSS toSS : StatefulSetM) : Bool × StatefulSetM :=
  let requireUpdate := toSS.labels.any (fun kv => mapGet fromSS.labels kv.1 != kv.2)
  let t1 := { toSS with labels := fromSS.labels }
  let requireUpdate := requireUpdate || t1.annotations.any (fun kv => mapGet fromSS.annotations kv.1 != kv.2)
  let t2 := { t1 with annotations := fromSS.annotations }
  let replicasDiffer := !(ptrEq fromSS.spec.replicas toSS.spec.replicas)
  let requireUpdate := requireUpdate || replicasDiffer
  let t3 :=
    if replicasDiffer then
      { t2 with spec := { t2.spec with replicas := fromSS.spec.replicas } }
    else t2
  let requireUpdate := requireUpdate || !(t3.spec.template.spec == fromSS.spec.template.spec)
  let t4 := { t3 with spec := { t3.spec with template := { t3.spec.template with spec := fromSS.spec.template.spec } } }
  (requireUpdate, t4)

/-- `corev1.ServicePort`. -/
structure ServicePort where
  name : String
  port : Int
  targetPort : Int
  protocol : String
deriving DecidableEq, Repr, Inhabited

/-- `corev1.ServiceSpec`: the fields generated or synced, plus the
store-owned `clusterIP` that the sync step must not touch. -/
structure ServiceSpecM where
  type : String
  selector : List (String × String)
  ports : List ServicePort
  clusterIP : String
deriving DecidableEq, Repr, Inhabited

/-- `corev1.Service`. -/
structure ServiceM where
  name : String
  nspace : String
  labels : List (String × String)
  annotations : List (String × String)
  spec : ServiceSpecM
deriving DecidableEq, Repr, Inhabited

/-- `generateService`. -/
def generateService (inst : Notebook) : ServiceM :=
  { name := inst.meta.name
    nspace := inst.meta.nspace
    labels := []
    annotations := [("traefik.ingress.kubernetes.io/service.serverstransport", "insecure@file")]
    spec :=
      { type := "ClusterIP"
        selector := [("statefulset", inst.meta.name)]
        ports := [{ name := "https-" ++ inst.meta.name, port := HttpsServingPort, targetPort := 3000, protocol := "TCP" }]
        clusterIP := "" } }

/-- `reconcilehelper.CopyServiceFields`: copies labels, annotations, the spec
selector and the spec ports from the desired Service into the fetched one
("Don't copy the entire Spec, because we can't overwrite the clusterIp
field"), reporting whether any copied value differed. Returns the flag and
the mutated fetched object. -/
def CopyServiceFields (fromSvc toSvc : ServiceM) : Bool × ServiceM :=
  let requireUpdate := toSvc.labels.any (fun kv => mapGet fromSvc.labels kv.1 != kv.2)
  let t1 := { toSvc with labels := fromSvc.labels }
  let requireUpdate := requireUpdate || t1.annotations.any (fun kv => mapGet fromSvc.annotations kv.1 != kv.2)
  let t2 := { t1 with annotations := fromSvc.annotations }
  let requireUpdate := requireUpdate || !(t2.spec.selector == fromSvc.spec.selector)
  let t3 := { t2 with spec := { t2.spec with selector := fromSvc.spec.selector } }
  let requireUpdate := requireUpdate || !(t3.spec.ports == fromSvc.spec.ports)
  let t4 := { t3 with spec := { t3.spec with ports := fromSvc.spec.ports } }
  (requireUpdate, t4)

/-- `netv1.HTTPIngressPath` as generated: path, path type, and the backend
service name and port number. -/
structure HTTPIngressPath where
  path : String
  pathType : String
  backendServiceName : String
  backendServicePort : Int
deriving DecidableEq, Repr, Inhabited

/-- `netv1.IngressRule` as generated. -/
structure IngressRule where
  host : String
  paths : List HTTPIngressPath
deriving DecidableEq, Repr, Inhabited

/-- `netv1.IngressTLS` (the source sets only `Hosts`; `SecretName` stays at
its zero value). -/
structure IngressTLS where
  hosts : List String
  secretName : String
deriving DecidableEq, Repr, Inhabited

/-- `netv1.Ingress`: the fields `generateIngress` sets. -/
structure IngressM where
  name : String
  nspace : String
  annotations : List (String × String)
  labels : List (String × String)
  ingressClassName : String
  tls : List IngressTLS
  rules : List IngressRule
deriving DecidableEq, Repr, Inhabited

/-- `ingressName`. -/
def ingressName (kfName : String) (nspace : String) : String :=
  kfName ++ "-" ++ nspace

/-- `generateIngress`. The Go function's error result is always `nil`
(no failing step), so the object is returned directly. -/
def generateIngress (cfg : Config) (inst : Notebook) : IngressM :=
  let name := inst.meta.name
  let nspace := inst.meta.nspace
  let tls : List IngressTLS :=
    [{ hosts := [ingressName name nspace ++ "." ++ cfg.customDomain], secretName := "" }]
  { name := ingressName name nspace
    nspace := nspace
    annotations :=
      [("traefik.ingress.kubernetes.io/router.entrypoints", "websecure"),
       ("cert-manager.io/cluster-issuer", "tmaxcloud-issuer")]
    labels := [("ingress.tmaxcloud.org/name", ingressName name nspace)]
    ingressClassName := "tmax-cloud"
    tls := tls
    rules :=
      [{ host := ingressName name nspace ++ "." ++ cfg.customDomain
         paths :=
           [{ path := "/"
              pathType := "Prefix"
              backendServiceName := inst.meta.name
              backendServicePort := 443 }] }] }

/-- `certificateName`. -/
def certificateName (kfName : String) (nspace : String) : String :=
  "cert-" ++ nspace ++ "-" ++ kfName

/-- The issuer reference map set on the certificate. -/
structure IssuerRef where
  group : String
  kind : String
  name : String
deriving DecidableEq, Repr, Inhabited

/-- The unstructured Certificate object as `generateCertificate` builds it:
the dotted-path fields it sets. -/
structure CertificateM where
  apiVersion : String
  kind : String
  name : String
  nspace : String
  secretName : String
  isCA : Bool
  dnsNames : List String
  usages : List String
  issuerRef : IssuerRef
deriving DecidableEq, Repr, Inhabited

/-- `generateCertificate`. Every `SetNestedField` call operates on the
freshly created object whose intermediate maps are built by the call itself,
so none of the error branches is reachable; the object is returned
directly. -/
def generateCertificate (inst : Notebook) : CertificateM :=
  let name := inst.meta.name
  let nspace := inst.meta.nspace
  { apiVersion := "cert-manager.io/v1"
    kind := "Certificate"
    name := certificateName name nspace
    nspace := nspace
    secretName := name ++ "-secret"
    isCA := false
    dnsNames := ["tmax-cloud"]
    usages := ["digital signature", "key encipherment", "server auth", "client auth"]
    issuerRef := { group := "cert-manager.io", kind := "ClusterIssuer", name := "tmaxcloud-issuer" } }

/-- `virtualServiceName`. -/
def virtualServiceName (kfName : String) (nspace : String) : String :=
  "notebook-" ++ nspace ++ "-" ++ kfName

/-- The single entry of the `http` section `generateVirtualService` builds:
request-header set, URI match, rewrite, and the route destination. -/
structure VirtualServiceHttp where
  headersRequestSet : List (String × String)
  matchUri : String
  rewriteUri : String
  destinationHost : String
  destinationPort : Int
deriving DecidableEq, Repr, Inhabited

/-- The unstructured VirtualService as `generateVirtualService` builds it. -/
structure VirtualServiceM where
  apiVersion : String
  kind : String
  name : String
  nspace : String
  hosts : List String
  gateways : List String
  http : List VirtualServiceHttp
deriving DecidableEq, Repr, Inhabited

/-- `generateVirtualService`. `jsonUnmarshalStringMap` abstracts
`json.Unmarshal` into a `map[string]string` (`none` = decoding error):
on a decoding error the source resets `headersRequestSet` to an empty map
and carries on. All `SetNested...` calls build fresh nested maps, so their
error branches are unreachable and the function always returns `ok`. -/
def generateVirtualService (cfg : Config)
    (jsonUnmarshalStringMap : String → Option (List (String × String)))
    (inst : Notebook) : Except String VirtualServiceM :=
  let name := inst.meta.name
  let nspace := inst.meta.nspace
  let pfx := "/notebook/" ++ nspace ++ "/" ++ name ++ "/"
  -- unpack annotations from the Notebook resource (a map copy)
  let annots := inst.meta.annotations
  let rewriteVal := "/notebook/" ++ nspace ++ "/" ++ name ++ "/"
  -- if AnnotationRewriteURI is present and non-empty, it overrides the rewrite
  let rewriteVal :=
    match annots.lookup AnnotationRewriteURI with
    | some v => if v.length > 0 then v else rewriteVal
    | none => rewriteVal
  let clusterDomain :=
    match cfg.clusterDomain with
    | some v => v
    | none => "cluster.local"
  let service := name ++ "." ++ nspace ++ ".svc." ++ clusterDomain
  let gw := if cfg.istioGateway.length == 0 then "kubeflow/kubeflow-gateway" else cfg.istioGateway
  let headersRequestSet : List (String × String) :=
    match annots.lookup AnnotationHeadersRequestSet with
    | some v =>
      if v.length > 0 then
        match jsonUnmarshalStringMap v with
        | some m => m
        | none => []
      else []
    | none => []
  Except.ok
    { apiVersion := "networking.istio.io/v1alpha3"
      kind := "VirtualService"
      name := virtualServiceName name nspace
      nspace := nspace
      hosts := ["*"]
      gateways := [gw]
      http :=
        [{ headersRequestSet := headersRequestSet
           matchUri := pfx
           rewriteUri := rewriteVal
           destinationHost := service
           destinationPort := DefaultServingPort }] }

/-- The two outcomes of a store `Get` that the event predicates distinguish
(`apierrs.IsNotFound` versus any other error). -/
inductive GetErr where
  | notFound
  | other
deriving DecidableEq, Repr

/-- `corev1.ObjectReference` (`event.InvolvedObject`): kind, name and
namespace of the event's subject. -/
structure ObjectReference where
  kind : String
  name : String
  nspace : String
deriving DecidableEq, Repr, Inhabited

/-- A fetched Pod, as far as the event predicates read it: its labels. -/
structure PodM where
  labels : List (String × String)
deriving DecidableEq, Repr, Inhabited

/-- `corev1.Event` as the predicates read it: the involved object and the
event's own namespace (`object.GetNamespace()`). -/
structure EventM where
  involvedObject : ObjectReference
  nspace : String
deriving DecidableEq, Repr, Inhabited

/-- `isStsOrPodEvent`. -/
def isStsOrPodEvent (ev : EventM) : Bool :=
  ev.involvedObject.kind == "Pod" || ev.involvedObject.kind == "StatefulSet"

/-- The error result of `nbNameFromInvolvedObject`: a propagated store error
from the pod lookup, or the function's own "object isn't related to a
Notebook" error. -/
inductive NbNameErr where
  | getFailed (e : GetErr)
  | notRelated
deriving DecidableEq, Repr

/-- `nbNameFromInvolvedObject`. The store lookup of a pod is abstracted as
`podGet namespace name`. A StatefulSet subject resolves to its own name; a
Pod subject resolves to its `notebook-name` label, a failed pod get
propagates, and a pod without the label falls through to the final
"isn't related" error, as does any other kind. -/
def nbNameFromInvolvedObject (podGet : String → String → Except GetErr PodM)
    (obj : ObjectReference) : Except NbNameErr String :=
  if obj.kind == "StatefulSet" then
    Except.ok obj.name
  else if obj.kind == "Pod" then
    match podGet obj.nspace obj.name with
    | Except.error e => Except.error (NbNameErr.getFailed e)
    | Except.ok pod =>
      match pod.labels.lookup "notebook-name" with
      | some nbName => Except.ok nbName
      | none => Except.error NbNameErr.notRelated
  else
    Except.error NbNameErr.notRelated

/-- `nbNameExists`. The Notebook lookup is abstracted as
`nbGet namespace name`. On an error other than NotFound the reconcile is
triggered anyway "to avoid loosing a potential relevant event". -/
def nbNameExists (nbGet : String → String → Except GetErr Unit)
    (nbName : String) (nspace : String) : Bool :=
  match nbGet nspace nbName with
  | Except.error e => !(e == GetErr.notFound)
  | Except.ok _ => true

/-- `predicate.Funcs`: the four event-filter callbacks
(`predicate.NewPredicateFuncs` sets all four to the same check). -/
structure PredicateFuncs where
  createFunc : EventM → Bool
  deleteFunc : EventM → Bool
  updateFunc : EventM → Bool
  genericFunc : EventM → Bool

/-- The `checkEvent` closure inside `predNBEvents`: resolve the owning
Notebook name (any resolution error rejects), then require a Pod/StatefulSet
subject and an existing Notebook. -/
def checkEvent (podGet : String → String → Except GetErr PodM)
    (nbGet : String → String → Except GetErr Unit) (ev : EventM) : Bool :=
  match nbNameFromInvolvedObject podGet ev.involvedObject with
  | Except.error _ => false
  | Except.ok nbName => isStsOrPodEvent ev && nbNameExists nbGet nbName ev.nspace

/-- `predNBEvents`: `NewPredicateFuncs(checkEvent)` with the delete callback
overridden to always reject ("Do not reconcile when an event gets
deleted"). -/
def predNBEvents (podGet : String → String → Except GetErr PodM)
    (nbGet : String → String → Except GetErr Unit) : PredicateFuncs :=
  { createFunc := checkEvent podGet nbGet
    deleteFunc := fun _ => false
    updateFunc := checkEvent podGet nbGet
    genericFunc := checkEvent podGet nbGet }

/-! ## Concrete values used by the theorems below -/

/-- A minimal primary container. -/
def containerEx : Container :=
  { name := "nb", image := "img", workingDir := "", ports := none, env := [],
    volumeMounts := [], args := none }

/-- The spec's scenario Notebook: `nb1` in namespace `team-a`, claim size
`10Gi`, no stop marker. -/
def nb1Ex : Notebook :=
  { meta := { name := "nb1", nspace := "team-a", labels := [], annotations := [] }
    spec :=
      { template := { spec := { containers := [containerEx], volumes := [], securityContext := none } }
        volumeClaim := [{ name := "claim", size := "10Gi", storageClass := "" }] }
    status :=
      { readyReplicas := 0
        containerState := { running := none, waiting := none, terminated := none }
        conditions := [] } }

/-- The same Notebook with the stop-marker annotation present. -/
def nbStopEx : Notebook :=
  { nb1Ex with
    meta := { nb1Ex.meta with annotations := [(stopAnnotationKey, "2021-01-01T00:00:00Z")] } }

/-- An example configuration. -/
def cfgEx : Config :=
  { clientSecret := "cs", discoveryUrl := "du", gatekeeperVersion := "v1",
    logLevel := "info", isClosed := "", registryName := "", addFsgroup := none,
    customDomain := "example.com", clusterDomain := none, istioGateway := "" }

/-- The by-value view of the fields `CopyStatefulSetFields` owns: labels,
annotations, the pointed-to replica count, and the pod template spec. -/
def ssOwnedFields (ss : StatefulSetM) :
    List (String × String) × List (String × String) × Option Int × PodSpec :=
  (ss.labels, ss.annotations, ss.spec.replicas.map Ptr.val, ss.spec.template.spec)

/-- The replica field of a generated StatefulSet: value 0 with the stop
marker set, 1 without, behind the fresh allocation `a`. -/
theorem generateStatefulSet_replicas (cfg : Config) (inst : Notebook) (a : Nat)
    (ss : StatefulSetM) (h : generateStatefulSet cfg inst a = some ss) :
    ss.spec.replicas = some { addr := a, val := if StopAnnotationIsSet inst.meta then 0 else 1 } := by
  cases hc : inst.spec.template.spec.containers with
  | nil => simp [generateStatefulSet, hc] at h
  | cons c0 crest =>
    simp only [generateStatefulSet, hc] at h
    injection h with h
    subst h
    rfl

/-! ## Claims -/

/-- Claim C1 (code bug, evaluated at the failing input): on a second
reconciliation pass with no external change — desired and stored StatefulSet
have equal labels, annotations, replica values and template specs, but the
`*int32` replica pointers are distinct allocations — `CopyStatefulSetFields`
still reports a difference, so an update is issued on every pass, contrary
to the claim (and to the function's own doc comment). -/
theorem C1_statefulset_update_every_pass :
    ((generateStatefulSet cfgEx nb1Ex 3).bind fun desired =>
        (generateStatefulSet cfgEx nb1Ex 2).map fun stored =>
          (CopyStatefulSetFields desired stored).1) = some true
    ∧ ((generateStatefulSet cfgEx nb1Ex 3).map ssOwnedFields)
        = ((generateStatefulSet cfgEx nb1Ex 2).map ssOwnedFields) :=
  ⟨rfl, rfl⟩

/-- Claim C2: the synthesized workload's replica count is 0 exactly when the
stop-marker annotation is present, and 1 otherwise; since the synthesizer is
a pure function of the Notebook, every pass with the marker still set yields
0 again. -/
theorem C2_replicas_zero_iff_stop_marker (cfg : Config) (inst : Notebook) (a : Nat)
    (ss : StatefulSetM) (h : generateStatefulSet cfg inst a = some ss) :
    (ss.spec.replicas = some { addr := a, val := 0 } ↔ StopAnnotationIsSet inst.meta = true)
    ∧ ss.spec.replicas = some { addr := a, val := if StopAnnotationIsSet inst.meta then 0 else 1 } := by
  have hr := generateStatefulSet_replicas cfg inst a ss h
  refine ⟨?_, hr⟩
  by_cases hs : StopAnnotationIsSet inst.meta
  · simp [hs] at hr
    simp [hs, hr]
  · simp [hs] at hr
    simp [hs, hr, Ptr.mk.injEq]

/-- Witness for C2 at the stopped example Notebook. -/
theorem C2_witness :
    ((((generateStatefulSet cfgEx nbStopEx 0).getD default).spec.replicas
        = some { addr := 0, val := 0 }) ↔ StopAnnotationIsSet nbStopEx.meta = true)
    ∧ ((generateStatefulSet cfgEx nbStopEx 0).getD default).spec.replicas
        = some { addr := 0, val := if StopAnnotationIsSet nbStopEx.meta then 0 else 1 } :=
  C2_replicas_zero_iff_stop_marker cfgEx nbStopEx 0 _ rfl

/-- Claim C3, counterexample: for a terminated container state the derived
condition's message is the terminated state's REASON, not its message, so
the claim as stated fails at this input. -/
theorem C3_terminated_message_counterexample :
    getNextCondition
        { running := none, waiting := none
          terminated := some { exitCode := 137, reason := "OOMKilled", message := "out of memory" } } 0
      = some { type := "Terminated", lastProbeTime := 0, reason := "OOMKilled", message := "OOMKilled" }
    ∧ ("OOMKilled" : String) ≠ "out of memory" :=
  ⟨rfl, by decide⟩

/-- Claim C3 as amended: the derived condition has type Running with empty
reason and message when the state is running; type Waiting with the waiting
state's reason and message when waiting; and type Terminated carrying the
terminated state's reason as BOTH its reason and its message otherwise. -/
theorem C3_condition_from_container_state (cs : ContainerState) (now : Nat) :
    (∀ r, cs.running = some r →
      getNextCondition cs now = some { type := "Running", lastProbeTime := now, reason := "", message := "" })
    ∧ (∀ w, cs.running = none → cs.waiting = some w →
      getNextCondition cs now = some { type := "Waiting", lastProbeTime := now, reason := w.reason, message := w.message })
    ∧ (∀ t, cs.running = none → cs.waiting = none → cs.terminated = some t →
      getNextCondition cs now = some { type := "Terminated", lastProbeTime := now, reason := t.reason, message := t.reason }) := by
  refine ⟨?_, ?_, ?_⟩
  · intro r hr
    simp [getNextCondition, hr]
  · intro w hr hw
    simp [getNextCondition, hr, hw]
  · intro t hr hw ht
    simp [getNextCondition, hr, hw, ht]

/-- Claim C4 (code bug, evaluated at the failing input): a container whose
environment already holds `NB_PREFIX=/old` is returned by `setPrefixEnvVar`
entirely unchanged — the Go range loop writes into a by-value copy — so the
entry's value is never updated to `/notebook/team-a/nb1`. -/
theorem C4_existing_env_entry_not_updated :
    setPrefixEnvVar nb1Ex { containerEx with env := [{ name := "NB_PREFIX", value := "/old" }] }
      = { containerEx with env := [{ name := "NB_PREFIX", value := "/old" }] }
    ∧ ("/old" : String) ≠ "/notebook/team-a/nb1" :=
  ⟨rfl, by decide⟩

/-- Claim C5: the history is either left unchanged or gets exactly the new
condition prepended with the old entries preserved in order; a second append
of a condition with the same (type, reason, message) triple is a no-op, so
two successive appends of one triple grow the history by at most one. -/
theorem C5_condition_history_dedup (old : List NotebookCondition) (c d : NotebookCondition)
    (ht : d.type = c.type) (hr : d.reason = c.reason) (hm : d.message = c.message) :
    (appendCondition old c = old ∨ appendCondition old c = c :: old)
    ∧ appendCondition (appendCondition old c) d = appendCondition old c
    ∧ (appendCondition (appendCondition old c) d).length ≤ old.length + 1 := by
  cases old with
  | nil =>
    refine ⟨Or.inr rfl, ?_, ?_⟩
    · show appendCondition [c] d = [c]
      simp [appendCondition, ht, hr, hm]
    · show (appendCondition [c] d).length ≤ 0 + 1
      simp [appendCondition, ht, hr, hm]
  | cons h t =>
    by_cases hcond : (h.type != c.type || h.reason != c.reason || h.message != c.message) = true
    · have h1 : appendCondition (h :: t) c = c :: h :: t := by
        simp [appendCondition, hcond]
      have h2 : appendCondition (c :: h :: t) d = c :: h :: t := by
        simp [appendCondition, ht, hr, hm]
      rw [h1, h2]
      exact ⟨Or.inr rfl, rfl, by simp⟩
    · have h1 : appendCondition (h :: t) c = h :: t := by
        simp [appendCondition]
        simp at hcond
        simp [hcond]
      have h2 : appendCondition (h :: t) d = h :: t := by
        simp [appendCondition, ht, hr, hm]
        simp at hcond
        simp [hcond]
      rw [h1, h2]
      exact ⟨Or.inl rfl, rfl, by simp⟩

/-- An example condition. -/
def condEx : NotebookCondition :=
  { type := "Running", lastProbeTime := 0, reason := "", message := "" }

/-- A condition with the same (type, reason, message) triple as `condEx` but
a later probe time. -/
def condEx2 : NotebookCondition :=
  { type := "Running", lastProbeTime := 5, reason := "", message := "" }

/-- Witness for C5: appending the same triple twice onto an empty history. -/
theorem C5_witness :
    (appendCondition [] condEx = [] ∨ appendCondition [] condEx = condEx :: [])
    ∧ appendCondition (appendCondition [] condEx) condEx2 = appendCondition [] condEx
    ∧ (appendCondition (appendCondition [] condEx) condEx2).length
        ≤ ([] : List NotebookCondition).length + 1 :=
  C5_condition_history_dedup [] condEx condEx2 rfl rfl rfl

/-- Claim C6: the spec's scenario — Notebook `nb1` in `team-a` with no stop
marker yields replica count 1, an ingress whose TLS entry and rule host are
`nb1-team-a.` followed by the configured base domain, and a certificate
named `cert-team-a-nb1`. -/
theorem C6_scenario_nb1 (cfg : Config) (a : Nat) (ss : StatefulSetM)
    (h : generateStatefulSet cfg nb1Ex a = some ss) :
    ss.spec.replicas = some { addr := a, val := 1 }
    ∧ (generateIngress cfg nb1Ex).tls
        = [{ hosts := ["nb1-team-a." ++ cfg.customDomain], secretName := "" }]
    ∧ (generateIngress cfg nb1Ex).rules.map IngressRule.host = ["nb1-team-a." ++ cfg.customDomain]
    ∧ (generateCertificate nb1Ex).name = "cert-team-a-nb1" := by
  refine ⟨?_, rfl, rfl, rfl⟩
  have hr := generateStatefulSet_replicas cfg nb1Ex a ss h
  simpa [show StopAnnotationIsSet nb1Ex.meta = false from rfl] using hr

/-- Witness for C6 at the example configuration. -/
theorem C6_witness :
    ((generateStatefulSet cfgEx nb1Ex 0).getD default).spec.replicas = some { addr := 0, val := 1 }
    ∧ (generateIngress cfgEx nb1Ex).tls
        = [{ hosts := ["nb1-team-a." ++ cfgEx.customDomain], secretName := "" }]
    ∧ (generateIngress cfgEx nb1Ex).rules.map IngressRule.host = ["nb1-team-a." ++ cfgEx.customDomain]
    ∧ (generateCertificate nb1Ex).name = "cert-team-a-nb1" :=
  C6_scenario_nb1 cfgEx 0 _ rfl

/-- Claim C7: the service field-copy step overwrites exactly the labels,
annotations, spec selector and spec ports of the fetched Service; its name,
namespace, spec type and — in particular — the store-assigned `clusterIP`
are left unchanged, whatever the update flag says. -/
theorem C7_copy_service_frame (fromSvc toSvc : ServiceM) :
    (CopyServiceFields fromSvc toSvc).2.spec.clusterIP = toSvc.spec.clusterIP
    ∧ (CopyServiceFields fromSvc toSvc).2.name = toSvc.name
    ∧ (CopyServiceFields fromSvc toSvc).2.nspace = toSvc.nspace
    ∧ (CopyServiceFields fromSvc toSvc).2.spec.type = toSvc.spec.type
    ∧ (CopyServiceFields fromSvc toSvc).2.labels = fromSvc.labels
    ∧ (CopyServiceFields fromSvc toSvc).2.annotations = fromSvc.annotations
    ∧ (CopyServiceFields fromSvc toSvc).2.spec.selector = fromSvc.spec.selector
    ∧ (CopyServiceFields fromSvc toSvc).2.spec.ports = fromSvc.spec.ports :=
  ⟨rfl, rfl, rfl, rfl, rfl, rfl, rfl, rfl⟩

/-- Claim C8: when the header-injection annotation is present and non-empty
but fails to decode as a JSON string-to-string map, `generateVirtualService`
substitutes an empty header map and still returns a successfully generated
object; the parse failure is never surfaced as an error. -/
theorem C8_malformed_headers_fallback (cfg : Config)
    (parse : String → Option (List (String × String))) (inst : Notebook) (v : String)
    (hv : inst.meta.annotations.lookup AnnotationHeadersRequestSet = some v)
    (hlen : 0 < v.length) (hparse : parse v = none) :
    (generateVirtualService cfg parse inst).isOk = true
    ∧ (generateVirtualService cfg parse inst).toOption.map
        (fun vs => vs.http.map VirtualServiceHttp.headersRequestSet) = some [[]] := by
  refine ⟨rfl, ?_⟩
  simp only [generateVirtualService, hv, hparse, hlen, if_pos]
  rfl

/-- The example Notebook with a malformed header-injection annotation. -/
def nbHeadersEx : Notebook :=
  { nb1Ex with
    meta := { nb1Ex.meta with annotations := [(AnnotationHeadersRequestSet, "not json")] } }

/-- A decoder on which every input fails. -/
def parseNoneEx : String → Option (List (String × String)) := fun _ => none

/-- Witness for C8 at the malformed-annotation example. -/
theorem C8_witness :
    (generateVirtualService cfgEx parseNoneEx nbHeadersEx).isOk = true
    ∧ (generateVirtualService cfgEx parseNoneEx nbHeadersEx).toOption.map
        (fun vs => vs.http.map VirtualServiceHttp.headersRequestSet) = some [[]] :=
  C8_malformed_headers_fallback cfgEx parseNoneEx nbHeadersEx "not json" rfl (by decide) rfl

/-- Claim C9: the event filter accepts only Pod/StatefulSet subjects whose
resolved Notebook exists — a ConfigMap subject is rejected, a pod subject
without the `notebook-name` label is rejected, a Notebook lookup failing
with an error other than NotFound still lets the event through, and
event-deletion notifications are always rejected. -/
theorem C9_event_filter (podGet : String → String → Except GetErr PodM)
    (nbGet : String → String → Except GetErr Unit) (ev : EventM) :
    (predNBEvents podGet nbGet).deleteFunc ev = false
    ∧ (ev.involvedObject.kind = "ConfigMap" → (predNBEvents podGet nbGet).createFunc ev = false)
    ∧ (∀ pod, ev.involvedObject.kind = "Pod" →
        podGet ev.involvedObject.nspace ev.involvedObject.name = Except.ok pod →
        pod.labels.lookup "notebook-name" = none →
        (predNBEvents podGet nbGet).createFunc ev = false)
    ∧ (ev.involvedObject.kind = "StatefulSet" →
        nbGet ev.nspace ev.involvedObject.name = Except.error GetErr.other →
        (predNBEvents podGet nbGet).createFunc ev = true)
    ∧ ((predNBEvents podGet nbGet).createFunc ev = true → isStsOrPodEvent ev = true) := by
  refine ⟨rfl, ?_, ?_, ?_, ?_⟩
  · intro hk
    show checkEvent podGet nbGet ev = false
    unfold checkEvent nbNameFromInvolvedObject
    rw [hk]
    rfl
  · intro pod hk hget hlabel
    have hres : nbNameFromInvolvedObject podGet ev.involvedObject = Except.error NbNameErr.notRelated := by
      unfold nbNameFromInvolvedObject
      rw [hk, hget]
      show (match pod.labels.lookup "notebook-name" with
            | some nbName => Except.ok nbName
            | none => Except.error NbNameErr.notRelated) = Except.error NbNameErr.notRelated
      rw [hlabel]
    show checkEvent podGet nbGet ev = false
    unfold checkEvent
    rw [hres]
  · intro hk hget
    have hres : nbNameFromInvolvedObject podGet ev.involvedObject = Except.ok ev.involvedObject.name := by
      unfold nbNameFromInvolvedObject
      rw [hk]
      rfl
    show checkEvent podGet nbGet ev = true
    unfold checkEvent
    rw [hres]
    show (isStsOrPodEvent ev && nbNameExists nbGet ev.involvedObject.name ev.nspace) = true
    unfold isStsOrPodEvent nbNameExists
    rw [hk, hget]
    rfl
  · intro htrue
    have h2 : checkEvent podGet nbGet ev = true := htrue
    unfold checkEvent at h2
    rcases hres : nbNameFromInvolvedObject podGet ev.involvedObject with e | nbName
    · rw [hres] at h2
      simp at h2
    · rw [hres] at h2
      change (isStsOrPodEvent ev && nbNameExists nbGet nbName ev.nspace) = true at h2
      simp only [Bool.and_eq_true] at h2
      exact h2.1

/-- Claim C10: `getNextCondition` faults (models as `none`) exactly on the
all-nil zero container state; whenever one of the Running, Waiting or
Terminated variants is set it returns a condition. -/
theorem C10_next_condition_none_iff_all_nil (cs : ContainerState) (now : Nat) :
    getNextCondition cs now = none
      ↔ cs.running = none ∧ cs.waiting = none ∧ cs.terminated = none := by
  obtain ⟨r, w, t⟩ := cs
  cases r <;> cases w <;> cases t <;> simp [getNextCondition]

end NotebookCtrl
